import Mathlib

/-!
Verification of the retrieval-and-answer pipeline of the rag_project
repository: a shallow embedding of `src/rag/src/services/rag_service.py`
(reranking, answer synthesis, query orchestration) and of
`src/rag/src/utils/vector_db.py` (embedding generation, vector search),
with theorems about fetch counts, stable descending reranking,
soft-failure containment and degraded-answer paths.
-/

namespace RagProject

/-- Candidate record: the dict produced by `VectorDatabase.search`
(vector_db.py lines 176-187) with keys id, document_id, chunk_id, filename,
chunk_text, distance, similarity.  Scores are modelled as rationals.
The optional `relevance_score` field models the presence of such a key in the
Python dict; `search` never sets it, so it is `none` on every record the
store produces, and no query-time code writes it. -/
structure Doc where
  id : Nat
  document_id : String
  chunk_id : String
  filename : String
  chunk_text : String
  distance : ℚ
  similarity : ℚ
  relevance_score : Option ℚ := none
deriving Repr, DecidableEq

/-- Outcome of the one judge call made by `score_document`
(rag_service.py lines 45-70) for a document, classified by the code path
the response takes:
* `raise`: the `chat.completions.create` call raises (caught at line 68);
* `noJson`: the response text has no brace-delimited payload (line 64);
* `malformed`: `json.loads` or `float(...)` raises, caught at line 66;
* `score v`: a JSON payload parsed with numeric `relevance_score` `v`
  (line 62; a payload missing the key is `score 0` via the `get` default). -/
inductive JudgeOutcome where
  | raise : JudgeOutcome
  | noJson : JudgeOutcome
  | malformed : JudgeOutcome
  | score : ℚ → JudgeOutcome
deriving Repr, DecidableEq

/-- The inner coroutine `score_document` of `_rerank_documents_with_openai`
(rag_service.py lines 36-70): every failing path returns `(0.0, doc)`; a
parsed numeric `relevance_score` `v` is returned unmodified as `(v, doc)`. -/
def score_document (judge : Doc → JudgeOutcome) (doc : Doc) : ℚ × Doc :=
  match judge doc with
  | .score v => (v, doc)
  | _ => (0, doc)

/-- Insertion step of a stable descending sort on score-document pairs:
the element walks past strictly larger scores and lands before the first
score less than or equal to its own, so earlier input elements precede
later ones among equal scores. -/
def insertDesc (x : ℚ × Doc) : List (ℚ × Doc) → List (ℚ × Doc)
  | [] => [x]
  | y :: ys => if x.1 < y.1 then y :: insertDesc x ys else x :: y :: ys

/-- Stable descending sort by score: the semantics of
`sorted(scored_docs, key=lambda x: x[0], reverse=True)` at rag_service.py
line 75 (CPython `sorted` is stable, and with `reverse=True` elements with
equal keys keep their original order). -/
def sortDesc : List (ℚ × Doc) → List (ℚ × Doc)
  | [] => []
  | x :: xs => insertDesc x (sortDesc xs)

/-- Method `RagService._rerank_documents_with_openai` (rag_service.py lines
27-77).  `clientConfigured` models `self.openai_client` being non-None;
`judge` gives the per-document outcome of the concurrently gathered scoring
calls (the query enters only through the judge prompt).  Returns the
reranked document list together with the number of judge calls issued. -/
def rerank_documents_with_openai (clientConfigured : Bool)
    (judge : Doc → JudgeOutcome) (query : String) (documents : List Doc) :
    List Doc × Nat :=
  if !clientConfigured || documents.isEmpty then (documents, 0)
  else
    let scored_docs := documents.map (score_document judge)
    let reranked_docs := sortDesc scored_docs
    (reranked_docs.map Prod.snd, documents.length)

/-- Context block built by `_generate_rag_response` at rag_service.py lines
88-93: one provenance header and one content line per document, in input
order.  Every `Doc` carries its fields, so the `N/A` defaults of
`doc.get` never trigger. -/
def buildContext (context_docs : List Doc) : String :=
  context_docs.foldl (fun acc doc =>
    acc ++ "Source: " ++ doc.filename ++ " - Chunk " ++ doc.chunk_id ++ "\n"
        ++ "Content: " ++ doc.chunk_text ++ "\n\n") ""

/-- Fixed string returned by `_generate_rag_response` when the completion
call raises (rag_service.py line 118). -/
def completionErrorMessage : String :=
  "An error occurred while generating the response."

/-- Fixed string returned by `process_query` when no documents survive
retrieval and truncation (rag_service.py line 144). -/
def noInformationMessage : String :=
  "I couldn\x27t find any relevant information to answer your question."

/-- Method `RagService._generate_rag_response` (rag_service.py lines
79-118).  `completion` models the `chat.completions.create` call on the
user prompt: `Except.error` is a raised exception, caught at line 116.
Returns the answer text and the number of completion calls issued. -/
def generate_rag_response (clientConfigured : Bool)
    (completion : String → Except Unit String) (query : String)
    (context_docs : List Doc) : String × Nat :=
  if !clientConfigured then ("Error: OpenAI client not configured.", 0)
  else
    let context := buildContext context_docs
    let prompt :=
      "\n        You are an expert Q&A assistant. Use the following context to answer the user\x27s question.\n        If the context does not contain the answer, state that you could not find the information.\n\n        Context:\n        ---\n        "
        ++ context
        ++ "\n        ---\n\n        Question: \"" ++ query ++ "\"\n        "
    match completion prompt with
    | .ok text => (text, 1)
    | .error _ => (completionErrorMessage, 1)

/-- Request model `QueryRequest` (models/api.py): query text, desired final
result count, reranking flag. -/
structure QueryRequest where
  query : String
  top_k : Nat
  use_reranking : Bool
deriving Repr, DecidableEq

/-- Response model `QueryResponse` (models/api.py): echoed query, answer
text, ordered source list. -/
structure QueryResponse where
  query : String
  response : String
  sources : List Doc
deriving Repr, DecidableEq

/-- Line 125 of rag_service.py:
`retrieval_limit = request.top_k * 3 if request.use_reranking else request.top_k`. -/
def retrieval_limit (request : QueryRequest) : Nat :=
  if request.use_reranking then request.top_k * 3 else request.top_k

/-- Success path of `VectorDatabase.search` (vector_db.py lines 142-197):
the store is given as the full list of chunk records ordered by ascending
cosine distance, and the SQL `ORDER BY ... LIMIT top_k` returns its first
`top_k` records. -/
def searchStore (store : List Doc) (top_k : Nat) : List Doc :=
  store.take top_k

/-- Method `RagService.process_query` (rag_service.py lines 120-150), on
the success path of retrieval.  Returns the `QueryResponse` together with
the number of judge calls and of completion calls issued. -/
def process_query (store : List Doc) (clientConfigured : Bool)
    (judge : Doc → JudgeOutcome) (completion : String → Except Unit String)
    (request : QueryRequest) : QueryResponse × Nat × Nat :=
  let similar_docs := searchStore store (retrieval_limit request)
  let step2 :=
    if request.use_reranking && !similar_docs.isEmpty then
      let r := rerank_documents_with_openai clientConfigured judge
        request.query similar_docs
      (r.1.take request.top_k, r.2)
    else
      (similar_docs.take request.top_k, 0)
  let final_docs := step2.1
  let step3 :=
    if !final_docs.isEmpty then
      generate_rag_response clientConfigured completion request.query final_docs
    else
      (noInformationMessage, 0)
  (⟨request.query, step3.1, final_docs⟩, step2.2, step3.2)

/-- Exceptions that `VectorDatabase.get_embedding` can raise (vector_db.py
lines 62-77): the `ValueError` for a missing client at line 63, and the
re-raised provider exception at line 77. -/
inductive EmbedError where
  | clientNotConfigured : EmbedError
  | providerFailed : EmbedError
deriving Repr, DecidableEq

/-- Normalization performed by `get_embedding` at vector_db.py line 65:
`text.replace("\n", " ").strip()`.  Replacing the one-character pattern
`\n` by a space maps each character independently, and `strip()` removes
leading and trailing whitespace; both are modelled on the character list
of the string. -/
def normalizeText (text : String) : String :=
  ⟨((((text.data.map (fun c => if c = Char.ofNat 10 then ' ' else c)).dropWhile
      Char.isWhitespace).reverse.dropWhile Char.isWhitespace).reverse)⟩

/-- Method `VectorDatabase.get_embedding` (vector_db.py lines 51-77).
`provider` models `openai_client.embeddings.create` applied to the
normalized text; `Except.error` is a raised provider exception.  Returns
the embedding vector and the number of provider calls issued. -/
def get_embedding (clientConfigured : Bool)
    (provider : String → Except Unit (List ℚ)) (text : String) :
    Except EmbedError (List ℚ × Nat) :=
  if !clientConfigured then .error .clientNotConfigured
  else
    let text := normalizeText text
    if text = "" then .ok ([], 0)
    else
      match provider text with
      | .ok v => .ok (v, 1)
      | .error _ => .error .providerFailed

/-- Descending order on score-document pairs: the second component scores
no higher than the first. -/
def scoreGE (a b : ℚ × Doc) : Prop := b.1 ≤ a.1

/-- A judge outcome on which `score_document` falls back to the `0.0`
default: a raised provider call, a brace-free response, or an unparseable
payload. -/
def judgeFailed : JudgeOutcome → Bool
  | .score _ => false
  | _ => true

/-- Reduced fraction given by its numerator and denominator, built
directly in normal form so that kernel evaluation never needs rational
normalization. -/
def mkQ (n : Int) (d : Nat) (h1 : d ≠ 0) (h2 : n.natAbs.Coprime d) : ℚ :=
  ⟨n, d, h1, h2⟩

/-- Sample candidate for concrete scenarios: chunk `n` of one document
with the given cosine distance and similarity, as formatted by
`VectorDatabase.search` (which sets similarity to one minus distance). -/
def mkDoc (n : Nat) (dist sim : ℚ) : Doc :=
  { id := n
    document_id := "doc-1"
    chunk_id := toString n
    filename := "policy.txt"
    chunk_text := "chunk " ++ toString n
    distance := dist
    similarity := sim }

/-- Store contents of the end-to-end scenario: six chunks with
similarities 0.9, 0.85, 0.8, 0.75, 0.7, 0.65 (distances 0.1, 0.15, 0.2,
0.25, 0.3, 0.35), in ascending-distance order. -/
def scenarioStore : List Doc :=
  [mkDoc 0 (mkQ 1 10 (by decide) (by decide)) (mkQ 9 10 (by decide) (by decide)),
   mkDoc 1 (mkQ 3 20 (by decide) (by decide)) (mkQ 17 20 (by decide) (by decide)),
   mkDoc 2 (mkQ 1 5 (by decide) (by decide)) (mkQ 4 5 (by decide) (by decide)),
   mkDoc 3 (mkQ 1 4 (by decide) (by decide)) (mkQ 3 4 (by decide) (by decide)),
   mkDoc 4 (mkQ 3 10 (by decide) (by decide)) (mkQ 7 10 (by decide) (by decide)),
   mkDoc 5 (mkQ 7 20 (by decide) (by decide)) (mkQ 13 20 (by decide) (by decide))]

/-- Judge of the end-to-end scenario: scores 0.2, 0.9, 0.95, 0.1, 0.3,
0.4 for chunks 0 to 5 respectively. -/
def scenarioJudge (d : Doc) : JudgeOutcome :=
  if d.id = 0 then .score (mkQ 1 5 (by decide) (by decide))
  else if d.id = 1 then .score (mkQ 9 10 (by decide) (by decide))
  else if d.id = 2 then .score (mkQ 19 20 (by decide) (by decide))
  else if d.id = 3 then .score (mkQ 1 10 (by decide) (by decide))
  else if d.id = 4 then .score (mkQ 3 10 (by decide) (by decide))
  else .score (mkQ 2 5 (by decide) (by decide))

/-- Request of the end-to-end scenario: top 2 results with reranking. -/
def scenarioRequest : QueryRequest :=
  { query := "What is the refund policy?", top_k := 2, use_reranking := true }

/-- Completion provider that answers normally. -/
def okCompletion : String → Except Unit String :=
  fun _ => Except.ok "Refunds are available within 30 days."

/-- Completion provider whose call raises. -/
def errCompletion : String → Except Unit String :=
  fun _ => Except.error ()

/-- Embedding provider returning a fixed vector. -/
def sampleProvider : String → Except Unit (List ℚ) :=
  fun _ => Except.ok [1, 0]

/-- Judge score 1.5, outside the documented range. -/
def score32 : ℚ := mkQ 3 2 (by decide) (by decide)

/-- Judge score 0.5, inside the documented range. -/
def score12 : ℚ := mkQ 1 2 (by decide) (by decide)

/-- Judge whose call for chunk 0 raises and which scores every other chunk
0.5: exercises the soft-failure path of `score_document`. -/
def failJudge (d : Doc) : JudgeOutcome :=
  if d.id = 0 then .raise else .score score12

/-- Judge giving chunk 0 the out-of-range score 1.5 and every other chunk
the in-range score 0.5. -/
def spikeJudge (d : Doc) : JudgeOutcome :=
  if d.id = 0 then .score score32 else .score score12

/-- Two-chunk store for the failure scenarios. -/
def smallStore : List Doc :=
  [mkDoc 0 (mkQ 1 10 (by decide) (by decide)) (mkQ 9 10 (by decide) (by decide)),
   mkDoc 1 (mkQ 1 5 (by decide) (by decide)) (mkQ 4 5 (by decide) (by decide))]

theorem insertDesc_perm (x : ℚ × Doc) (l : List (ℚ × Doc)) :
    (insertDesc x l).Perm (x :: l) := by
  induction l with
  | nil => simp [insertDesc]
  | cons y ys ih =>
    simp only [insertDesc]
    split
    · exact (ih.cons y).trans (List.Perm.swap x y ys)
    · exact List.Perm.refl _

theorem sortDesc_perm (l : List (ℚ × Doc)) : (sortDesc l).Perm l := by
  induction l with
  | nil => simp [sortDesc]
  | cons x xs ih =>
    exact (insertDesc_perm x (sortDesc xs)).trans (ih.cons x)

theorem insertDesc_pairwise (x : ℚ × Doc) (l : List (ℚ × Doc))
    (h : l.Pairwise scoreGE) : (insertDesc x l).Pairwise scoreGE := by
  induction l with
  | nil => simp [insertDesc, List.pairwise_singleton]
  | cons y ys ih =>
    rcases List.pairwise_cons.mp h with ⟨hy, hys⟩
    simp only [insertDesc]
    split
    · rename_i hxy
      refine List.pairwise_cons.mpr ⟨?_, ih hys⟩
      intro z hz
      rcases List.mem_cons.mp ((insertDesc_perm x ys).mem_iff.mp hz) with rfl | hz
      · exact le_of_lt hxy
      · exact hy z hz
    · rename_i hxy
      push_neg at hxy
      refine List.pairwise_cons.mpr ⟨?_, h⟩
      intro z hz
      rcases List.mem_cons.mp hz with rfl | hz
      · exact hxy
      · exact le_trans (hy z hz) hxy

theorem sortDesc_pairwise (l : List (ℚ × Doc)) :
    (sortDesc l).Pairwise scoreGE := by
  induction l with
  | nil => simp [sortDesc]
  | cons x xs ih => exact insertDesc_pairwise x (sortDesc xs) ih

theorem insertDesc_filter (x : ℚ × Doc) (l : List (ℚ × Doc)) (s : ℚ) :
    (insertDesc x l).filter (fun z => decide (z.1 = s)) =
      if x.1 = s then x :: l.filter (fun z => decide (z.1 = s))
      else l.filter (fun z => decide (z.1 = s)) := by
  induction l with
  | nil => by_cases hx : x.1 = s <;> simp [insertDesc, List.filter, hx]
  | cons y ys ih =>
    simp only [insertDesc]
    split
    · rename_i hxy
      by_cases hx : x.1 = s
      · have hy : ¬ (y.1 = s) := by
          intro hy
          rw [hx, hy] at hxy
          exact lt_irrefl s hxy
        simp [List.filter_cons, hx, hy, ih]
      · by_cases hy : y.1 = s <;> simp [List.filter_cons, hx, hy, ih]
    · by_cases hx : x.1 = s <;> simp [List.filter_cons, hx]

theorem sortDesc_filter (l : List (ℚ × Doc)) (s : ℚ) :
    (sortDesc l).filter (fun z => decide (z.1 = s)) =
      l.filter (fun z => decide (z.1 = s)) := by
  induction l with
  | nil => simp [sortDesc]
  | cons x xs ih =>
    by_cases hx : x.1 = s <;>
      simp [sortDesc, insertDesc_filter, hx, List.filter_cons, ih]

theorem sortDesc_length (l : List (ℚ × Doc)) :
    (sortDesc l).length = l.length :=
  (sortDesc_perm l).length_eq

/-- The reranked list always has exactly as many documents as the input. -/
theorem rerank_length (clientConfigured : Bool) (judge : Doc → JudgeOutcome)
    (query : String) (documents : List Doc) :
    (rerank_documents_with_openai clientConfigured judge query documents).1.length
      = documents.length := by
  unfold rerank_documents_with_openai
  split
  · rfl
  · simp [sortDesc_length]

/-- The reranked list is a permutation of the input list. -/
theorem rerank_perm (clientConfigured : Bool) (judge : Doc → JudgeOutcome)
    (query : String) (documents : List Doc) :
    (rerank_documents_with_openai clientConfigured judge query documents).1.Perm
      documents := by
  unfold rerank_documents_with_openai
  split
  · exact List.Perm.refl _
  · show (List.map Prod.snd
      (sortDesc (documents.map (score_document judge)))).Perm documents
    have h := (sortDesc_perm (documents.map (score_document judge))).map Prod.snd
    have h2 : ∀ ds : List Doc,
        (ds.map (score_document judge)).map Prod.snd = ds := by
      intro ds
      induction ds with
      | nil => rfl
      | cons d ds ih =>
        have hd : (score_document judge d).2 = d := by
          unfold score_document
          cases judge d <;> rfl
        simp [ih, hd]
    rw [h2 documents] at h
    exact h

/-- The source list of the response is the truncated reranked list when
reranking ran, else the truncated retrieval list. -/
theorem process_query_sources_eq (store : List Doc) (cc : Bool)
    (judge : Doc → JudgeOutcome) (completion : String → Except Unit String)
    (request : QueryRequest) :
    (process_query store cc judge completion request).1.sources =
      if request.use_reranking
          && !(searchStore store (retrieval_limit request)).isEmpty then
        (rerank_documents_with_openai cc judge request.query
          (searchStore store (retrieval_limit request))).1.take request.top_k
      else (searchStore store (retrieval_limit request)).take request.top_k := by
  unfold process_query
  by_cases h : request.use_reranking
      && !(searchStore store (retrieval_limit request)).isEmpty <;>
    simp [h]

/-- The source list does not depend on the completion provider. -/
theorem process_query_sources_indep (store : List Doc) (cc : Bool)
    (judge : Doc → JudgeOutcome) (c₁ c₂ : String → Except Unit String)
    (request : QueryRequest) :
    (process_query store cc judge c₁ request).1.sources =
      (process_query store cc judge c₂ request).1.sources := by
  rw [process_query_sources_eq, process_query_sources_eq]

/-- The answer text comes from the synthesis step on the final source
list when that list is non-empty, else it is the fixed fallback. -/
theorem process_query_response_eq (store : List Doc) (cc : Bool)
    (judge : Doc → JudgeOutcome) (completion : String → Except Unit String)
    (request : QueryRequest) :
    (process_query store cc judge completion request).1.response =
      if !((process_query store cc judge completion request).1.sources).isEmpty then
        (generate_rag_response cc completion request.query
          (process_query store cc judge completion request).1.sources).1
      else noInformationMessage := by
  rw [process_query_sources_eq]
  unfold process_query
  by_cases h : request.use_reranking
      && !(searchStore store (retrieval_limit request)).isEmpty <;>
    simp only [h, if_pos, if_neg, Bool.false_eq_true, if_false, if_true] <;>
    split <;> rfl

/-- The number of completion calls is that of the synthesis step on a
non-empty final source list, else zero. -/
theorem process_query_compCalls_eq (store : List Doc) (cc : Bool)
    (judge : Doc → JudgeOutcome) (completion : String → Except Unit String)
    (request : QueryRequest) :
    (process_query store cc judge completion request).2.2 =
      if !((process_query store cc judge completion request).1.sources).isEmpty then
        (generate_rag_response cc completion request.query
          (process_query store cc judge completion request).1.sources).2
      else 0 := by
  rw [process_query_sources_eq]
  unfold process_query
  by_cases h : request.use_reranking
      && !(searchStore store (retrieval_limit request)).isEmpty <;>
    simp only [h, if_pos, if_neg, Bool.false_eq_true, if_false, if_true] <;>
    split <;> rfl

/-- C1: for every query request with top_k at least 1, when use_reranking
is true the retrieval step requests exactly top_k * 3 candidates from the
vector store (at least top_k and at most top_k * 3), when use_reranking is
false it requests exactly top_k, and in both cases the final source list
returned by process_query has length min(top_k, retrieved_count). -/
theorem C1_fetch_count_and_final_source_length (store : List Doc)
    (cc : Bool) (judge : Doc → JudgeOutcome)
    (completion : String → Except Unit String) (request : QueryRequest)
    (h : 1 ≤ request.top_k) :
    (request.use_reranking = true →
      retrieval_limit request = request.top_k * 3 ∧
      request.top_k ≤ retrieval_limit request ∧
      retrieval_limit request ≤ request.top_k * 3) ∧
    (request.use_reranking = false →
      retrieval_limit request = request.top_k) ∧
    (process_query store cc judge completion request).1.sources.length =
      min request.top_k (searchStore store (retrieval_limit request)).length := by
  refine ⟨?_, ?_, ?_⟩
  · intro hr
    have h3 : retrieval_limit request = request.top_k * 3 := by
      simp [retrieval_limit, hr]
    exact ⟨h3, by omega, by omega⟩
  · intro hr
    simp [retrieval_limit, hr]
  · rw [process_query_sources_eq]
    split
    · rw [List.length_take, rerank_length]
    · rw [List.length_take]

/-- Witness for C1 at the end-to-end scenario inputs. -/
theorem C1_witness :
    1 ≤ scenarioRequest.top_k ∧
    ((scenarioRequest.use_reranking = true →
        retrieval_limit scenarioRequest = scenarioRequest.top_k * 3 ∧
        scenarioRequest.top_k ≤ retrieval_limit scenarioRequest ∧
        retrieval_limit scenarioRequest ≤ scenarioRequest.top_k * 3) ∧
      (scenarioRequest.use_reranking = false →
        retrieval_limit scenarioRequest = scenarioRequest.top_k) ∧
      (process_query scenarioStore true scenarioJudge okCompletion
          scenarioRequest).1.sources.length =
        min scenarioRequest.top_k
          (searchStore scenarioStore (retrieval_limit scenarioRequest)).length) :=
  ⟨by decide, C1_fetch_count_and_final_source_length scenarioStore true
    scenarioJudge okCompletion scenarioRequest (by decide)⟩

/-- C2: end-to-end, for the query about the refund policy with top_k 2 and
reranking on, a store of six candidates with similarities 0.9, 0.85, 0.8,
0.75, 0.7, 0.65 and judge scores 0.2, 0.9, 0.95, 0.1, 0.3, 0.4 yields
exactly two sources: the candidate at input index 2 (score 0.95) followed
by the candidate at input index 1 (score 0.9). -/
theorem C2_end_to_end_refund_scenario :
    (process_query scenarioStore true scenarioJudge okCompletion
        scenarioRequest).1.sources =
      [scenarioStore.get ⟨2, by decide⟩, scenarioStore.get ⟨1, by decide⟩] := by
  decide

/-- C6: reranking with an empty candidate list, or with no judge
capability configured, returns the input unchanged and issues zero
provider calls. -/
theorem C6_rerank_noop (cc : Bool) (judge : Doc → JudgeOutcome)
    (query : String) (documents : List Doc)
    (h : documents = [] ∨ cc = false) :
    rerank_documents_with_openai cc judge query documents = (documents, 0) := by
  unfold rerank_documents_with_openai
  rcases h with rfl | rfl
  · simp
  · simp

/-- Witness for C6: an unconfigured judge capability with a non-empty
candidate list. -/
theorem C6_witness :
    (smallStore = [] ∨ false = false) ∧
    rerank_documents_with_openai false scenarioJudge "q" smallStore =
      (smallStore, 0) :=
  ⟨Or.inr rfl, C6_rerank_noop false scenarioJudge "q" smallStore (Or.inr rfl)⟩

/-- C10: for every input text that is empty or whitespace-only after
newline replacement and stripping, the embedding operation returns the
empty vector with zero provider calls instead of raising. -/
theorem C10_blank_text_empty_embedding
    (provider : String → Except Unit (List ℚ)) (text : String)
    (h : normalizeText text = "") :
    get_embedding true provider text = .ok ([], 0) := by
  unfold get_embedding
  simp [h]

/-- Witness for C10 on a whitespace-and-newline text. -/
theorem C10_witness :
    normalizeText " \n " = "" ∧
    get_embedding true sampleProvider " \n " = .ok ([], 0) :=
  ⟨by decide, C10_blank_text_empty_embedding sampleProvider " \n " (by decide)⟩

/-- C3: for every non-empty candidate list and every assignment of judge
scores, the rerank output is the stable descending sort of the scored
candidates: the output is the score-sorted list with documents projected
out, any candidate with a strictly higher score appears before any with a
lower score, and candidates with equal scores keep their relative input
order (the filter at every score value is unchanged). -/
theorem C3_rerank_stable_descending (judge : Doc → JudgeOutcome)
    (query : String) (documents : List Doc) (h : documents ≠ []) :
    (rerank_documents_with_openai true judge query documents).1 =
      (sortDesc (documents.map (score_document judge))).map Prod.snd ∧
    (∀ i j : Fin (sortDesc (documents.map (score_document judge))).length,
      ((sortDesc (documents.map (score_document judge))).get j).1 <
        ((sortDesc (documents.map (score_document judge))).get i).1 →
      i < j) ∧
    (∀ s : ℚ,
      (sortDesc (documents.map (score_document judge))).filter
          (fun z => decide (z.1 = s)) =
        (documents.map (score_document judge)).filter
          (fun z => decide (z.1 = s))) := by
  refine ⟨?_, ?_, ?_⟩
  · have he : documents.isEmpty = false := by
      cases documents with
      | nil => exact absurd rfl h
      | cons a l => rfl
    unfold rerank_documents_with_openai
    simp [he]
  · intro i j hlt
    by_contra hij
    push_neg at hij
    rcases lt_or_eq_of_le hij with hji | hji
    · have hp := (List.pairwise_iff_get.mp
        (sortDesc_pairwise (documents.map (score_document judge)))) j i hji
      exact absurd hlt (not_lt.mpr hp)
    · rw [hji] at hlt
      exact lt_irrefl _ hlt
  · exact fun s => sortDesc_filter _ s

/-- Witness for C3 at the end-to-end scenario inputs. -/
theorem C3_witness :
    scenarioStore ≠ [] ∧
    ((rerank_documents_with_openai true scenarioJudge "q" scenarioStore).1 =
      (sortDesc (scenarioStore.map (score_document scenarioJudge))).map Prod.snd ∧
    (∀ i j : Fin (sortDesc (scenarioStore.map (score_document scenarioJudge))).length,
      ((sortDesc (scenarioStore.map (score_document scenarioJudge))).get j).1 <
        ((sortDesc (scenarioStore.map (score_document scenarioJudge))).get i).1 →
      i < j) ∧
    (∀ s : ℚ,
      (sortDesc (scenarioStore.map (score_document scenarioJudge))).filter
          (fun z => decide (z.1 = s)) =
        (scenarioStore.map (score_document scenarioJudge)).filter
          (fun z => decide (z.1 = s)))) :=
  ⟨by decide, C3_rerank_stable_descending scenarioJudge "q" scenarioStore
    (by decide)⟩

/-- C4: for every candidate list, the rerank output is a permutation of
the input (all N candidates kept, none dropped), and any candidate whose
judge call raises or returns unparseable output is scored 0.0; the rerank
operation is a total function, so the failure never reaches the caller. -/
theorem C4_soft_failure_containment (judge : Doc → JudgeOutcome)
    (query : String) (documents : List Doc) :
    (rerank_documents_with_openai true judge query documents).1.Perm
        documents ∧
    (rerank_documents_with_openai true judge query documents).1.length =
        documents.length ∧
    (∀ d : Doc, judgeFailed (judge d) = true →
      (score_document judge d).1 = 0) := by
  refine ⟨rerank_perm true judge query documents,
    rerank_length true judge query documents, ?_⟩
  intro d hd
  unfold score_document
  cases hj : judge d with
  | score v =>
    rw [hj] at hd
    simp [judgeFailed] at hd
  | raise => simp
  | noJson => simp
  | malformed => simp

/-- Witness for C4: a judge that raises on chunk 0 still keeps both
candidates and scores chunk 0 as zero. -/
theorem C4_witness :
    judgeFailed (failJudge (smallStore.get ⟨0, by decide⟩)) = true ∧
    (score_document failJudge (smallStore.get ⟨0, by decide⟩)).1 = 0 ∧
    (rerank_documents_with_openai true failJudge "q" smallStore).1.Perm
      smallStore :=
  ⟨by decide,
   (C4_soft_failure_containment failJudge "q" smallStore).2.2 _ (by decide),
   (C4_soft_failure_containment failJudge "q" smallStore).1⟩

/-- C5 counterexample: reranking a single candidate whose judge score is
0.9 returns the record without any relevance_score attached (the field
stays absent), refuting that every returned candidate carries its
assigned score. -/
theorem C5_scores_not_attached_counterexample :
    ¬ (∀ d ∈ (rerank_documents_with_openai true
          (fun _ => JudgeOutcome.score (mkQ 9 10 (by decide) (by decide)))
          "q" [mkDoc 0 (mkQ 1 10 (by decide) (by decide))
                (mkQ 9 10 (by decide) (by decide))]).1,
        d.relevance_score = some (mkQ 9 10 (by decide) (by decide))) := by
  decide

/-- C5 amended: when reranking runs on a non-empty candidate list, the
output is the same multiset of candidate records, each record unchanged;
the judge scores serve only as internal sort keys, are discarded rather
than attached (relevance_score stays absent on records that lacked it),
and are not constrained to the range 0.0 to 1.0. -/
theorem C5_rerank_same_records_amended (judge : Doc → JudgeOutcome)
    (query : String) (documents : List Doc) (h : documents ≠ [])
    (hnone : ∀ d ∈ documents, d.relevance_score = none) :
    (rerank_documents_with_openai true judge query documents).1.Perm
        documents ∧
    ∀ d ∈ (rerank_documents_with_openai true judge query documents).1,
      d.relevance_score = none := by
  have hp := rerank_perm true judge query documents
  exact ⟨hp, fun d hd => hnone d (hp.mem_iff.mp hd)⟩

/-- Witness for the amended C5 on the two-chunk store. -/
theorem C5_witness :
    smallStore ≠ [] ∧
    (∀ d ∈ smallStore, d.relevance_score = none) ∧
    ((rerank_documents_with_openai true scenarioJudge "q" smallStore).1.Perm
        smallStore ∧
      ∀ d ∈ (rerank_documents_with_openai true scenarioJudge "q"
          smallStore).1, d.relevance_score = none) :=
  ⟨by decide, by decide,
   C5_rerank_same_records_amended scenarioJudge "q" smallStore (by decide)
     (by decide)⟩

/-- C7: when the ranked candidate list handed to answer synthesis is
empty, the completion provider is never invoked and the answer text is the
fixed no-relevant-information message. -/
theorem C7_empty_candidates_canned_message (store : List Doc) (cc : Bool)
    (judge : Doc → JudgeOutcome) (completion : String → Except Unit String)
    (request : QueryRequest)
    (h : (process_query store cc judge completion request).1.sources = []) :
    (process_query store cc judge completion request).1.response =
        noInformationMessage ∧
    (process_query store cc judge completion request).2.2 = 0 := by
  constructor
  · rw [process_query_response_eq, h]
    rfl
  · rw [process_query_compCalls_eq, h]
    rfl

/-- Witness for C7 on an empty store. -/
theorem C7_witness :
    (process_query [] true scenarioJudge okCompletion
        scenarioRequest).1.sources = [] ∧
    ((process_query [] true scenarioJudge okCompletion
        scenarioRequest).1.response = noInformationMessage ∧
      (process_query [] true scenarioJudge okCompletion
        scenarioRequest).2.2 = 0) :=
  ⟨rfl, C7_empty_candidates_canned_message [] true scenarioJudge
    okCompletion scenarioRequest rfl⟩

/-- C8: for every request whose final candidate list is non-empty, a
completion call that raises yields the fixed degraded-answer string, and
the request still completes with the same ordered source list as a run
whose completion succeeds. -/
theorem C8_completion_failure_degrades (store : List Doc)
    (judge : Doc → JudgeOutcome) (comp : String → Except Unit String)
    (request : QueryRequest)
    (h : (process_query store true judge errCompletion request).1.sources
      ≠ []) :
    (process_query store true judge errCompletion request).1.response =
        completionErrorMessage ∧
    (process_query store true judge errCompletion request).1.sources =
      (process_query store true judge comp request).1.sources := by
  constructor
  · rw [process_query_response_eq]
    have hs : ((process_query store true judge errCompletion
        request).1.sources).isEmpty = false := by
      cases hS : (process_query store true judge errCompletion
          request).1.sources with
      | nil => exact absurd hS h
      | cons a l => rfl
    simp only [hs, Bool.not_false, if_true]
    rfl
  · exact process_query_sources_indep store true judge errCompletion comp
      request

/-- Witness for C8 on the two-chunk store. -/
theorem C8_witness :
    (process_query smallStore true scenarioJudge errCompletion
        scenarioRequest).1.sources ≠ [] ∧
    ((process_query smallStore true scenarioJudge errCompletion
        scenarioRequest).1.response = completionErrorMessage ∧
      (process_query smallStore true scenarioJudge errCompletion
          scenarioRequest).1.sources =
        (process_query smallStore true scenarioJudge okCompletion
          scenarioRequest).1.sources) :=
  ⟨by decide, C8_completion_failure_degrades smallStore scenarioJudge
    okCompletion scenarioRequest (by decide)⟩

/-- C9: a parsed judge score is used as the sort key without clamping or
range validation: a candidate whose judge returns 1.5 keeps that value as
its score and is ranked above every candidate with an in-range score. -/
theorem C9_unclamped_score_ranks_first (judge : Doc → JudgeOutcome)
    (query : String) (documents : List Doc) (d : Doc)
    (hd : d ∈ documents)
    (hscore : judge d = JudgeOutcome.score score32)
    (hothers : ∀ e ∈ documents, e = d ∨ (score_document judge e).1 ≤ 1) :
    (score_document judge d).1 = score32 ∧
    (rerank_documents_with_openai true judge query documents).1.head? =
      some d := by
  have hsd : score_document judge d = (score32, d) := by
    unfold score_document
    rw [hscore]
  refine ⟨by rw [hsd], ?_⟩
  have hne : documents.isEmpty = false := by
    cases documents with
    | nil => cases hd
    | cons a l => rfl
  have hout : (rerank_documents_with_openai true judge query documents).1 =
      (sortDesc (documents.map (score_document judge))).map Prod.snd := by
    unfold rerank_documents_with_openai
    simp [hne]
  rw [hout]
  have hperm := sortDesc_perm (documents.map (score_document judge))
  have hmem : (score32, d) ∈ documents.map (score_document judge) :=
    List.mem_map.mpr ⟨d, hd, hsd⟩
  have hmemS : (score32, d) ∈
      sortDesc (documents.map (score_document judge)) :=
    hperm.mem_iff.mpr hmem
  have hpair := sortDesc_pairwise (documents.map (score_document judge))
  cases hScons : sortDesc (documents.map (score_document judge)) with
  | nil =>
    rw [hScons] at hmemS
    cases hmemS
  | cons y ys =>
    rw [hScons] at hpair hmemS
    rcases List.pairwise_cons.mp hpair with ⟨hy, _⟩
    have hy32 : score32 ≤ y.1 := by
      rcases List.mem_cons.mp hmemS with heq | hmem'
      · rw [← heq]
      · exact hy _ hmem'
    have hyL : y ∈ documents.map (score_document judge) := by
      have hyS : y ∈ sortDesc (documents.map (score_document judge)) := by
        rw [hScons]
        exact List.mem_cons_self y ys
      exact hperm.mem_iff.mp hyS
    rcases List.mem_map.mp hyL with ⟨e, he, hye⟩
    rcases hothers e he with rfl | hle
    · rw [hsd] at hye
      simp [← hye]
    · exfalso
      rw [hye] at hle
      have h1 : (1 : ℚ) < score32 := by decide
      exact absurd hy32 (not_le.mpr (lt_of_le_of_lt hle h1))

/-- Witness for C9: chunk 0 judged 1.5 outranks chunk 1 judged 0.5. -/
theorem C9_witness :
    (smallStore.get ⟨0, by decide⟩) ∈ smallStore ∧
    spikeJudge (smallStore.get ⟨0, by decide⟩) = JudgeOutcome.score score32 ∧
    (∀ e ∈ smallStore, e = smallStore.get ⟨0, by decide⟩ ∨
      (score_document spikeJudge e).1 ≤ 1) ∧
    ((score_document spikeJudge (smallStore.get ⟨0, by decide⟩)).1 =
        score32 ∧
      (rerank_documents_with_openai true spikeJudge "q"
          smallStore).1.head? = some (smallStore.get ⟨0, by decide⟩)) :=
  ⟨by decide, by decide, by decide,
   C9_unclamped_score_ranks_first spikeJudge "q" smallStore _ (by decide)
     (by decide) (by decide)⟩

end RagProject
